import Mathlib

/-!
Verification of the probe model and the ICMP wire channel of the `trippy`
path-tracing core.

The development shallowly embeds two source files:

* `crates/trippy-core/src/probe.rs` — the probe lifecycle value types
  (`ProbeStatus`, `Probe`, `ProbeComplete`, extensions) and the operations
  `Probe::new` and `Probe::complete`.
* `src/icmp/net.rs` — the ICMP channel: `IcmpChannel::send`,
  `IcmpChannel::receive` and `extract_echo_request`, together with the
  behaviour of the `pnet` packet views and `pnet::util::checksum` they call.

Machine integers are modelled as `Nat`; byte buffers as `List Nat` whose
elements are byte values.  Fallible paths return explicit outcome types, with
a dedicated constructor for a Rust panic (out-of-bounds slice index or
unsigned-subtraction overflow).  Timestamps (`SystemTime`) are modelled as
`Nat` instants.
-/

/-- An IP address (`std::net::IpAddr`), abstracted to its numeric value. -/
inductive IpAddr where
  | v4 (addr : Nat) : IpAddr
  | v6 (addr : Nat) : IpAddr
  deriving DecidableEq, Repr

/-- Newtype for the 16-bit probe sequence number (`types.rs`). -/
structure Sequence where
  val : Nat
  deriving DecidableEq, Repr

/-- Newtype for the 16-bit trace identifier (`types.rs`). -/
structure TraceId where
  val : Nat
  deriving DecidableEq, Repr

/-- Newtype for a 16-bit port (`types.rs`). -/
structure Port where
  val : Nat
  deriving DecidableEq, Repr

/-- Newtype for the 8-bit time-to-live (`types.rs`). -/
structure TimeToLive where
  val : Nat
  deriving DecidableEq, Repr

/-- Newtype for the round identifier (`types.rs`). -/
structure RoundId where
  val : Nat
  deriving DecidableEq, Repr

/-- Probe flags bitset (`types.rs`). -/
structure Flags where
  bits : Nat
  deriving DecidableEq, Repr

/-- The code of `TimeExceeded`, `EchoReply` and `Unreachable` ICMP packets. -/
structure IcmpPacketCode where
  val : Nat
  deriving DecidableEq, Repr

/-- The type of ICMP packet received (`probe.rs`). -/
inductive IcmpPacketType where
  | timeExceeded (code : IcmpPacketCode)
  | echoReply (code : IcmpPacketCode)
  | unreachable (code : IcmpPacketCode)
  | notApplicable
  deriving DecidableEq, Repr

/-- A member of a MPLS probe response extension (`probe.rs`). -/
structure MplsLabelStackMember where
  label : Nat
  exp : Nat
  bos : Nat
  ttl : Nat
  deriving DecidableEq, Repr

/-- The members of a MPLS probe response extension (`probe.rs`). -/
structure MplsLabelStack where
  members : List MplsLabelStackMember
  deriving DecidableEq, Repr

/-- An unknown ICMP extension (`probe.rs`). -/
structure UnknownExtension where
  class_num : Nat
  class_subtype : Nat
  bytes : List Nat
  deriving DecidableEq, Repr

/-- A probe response extension (`probe.rs`). -/
inductive Extension where
  | unknown (ext : UnknownExtension)
  | mpls (stack : MplsLabelStack)
  deriving DecidableEq, Repr

/-- The ICMP extensions for a probe response (`probe.rs`). -/
structure Extensions where
  extensions : List Extension
  deriving DecidableEq, Repr

/-- An incomplete network tracing probe (`probe.rs`, struct `Probe`). -/
structure Probe where
  sequence : Sequence
  identifier : TraceId
  src_port : Port
  dest_port : Port
  ttl : TimeToLive
  round : RoundId
  sent : Nat
  flags : Flags
  deriving DecidableEq, Repr

/-- A complete network tracing probe (`probe.rs`, struct `ProbeComplete`).
Note the struct has no `flags` field. -/
structure ProbeComplete where
  sequence : Sequence
  identifier : TraceId
  src_port : Port
  dest_port : Port
  ttl : TimeToLive
  round : RoundId
  sent : Nat
  host : IpAddr
  received : Nat
  icmp_packet_type : IcmpPacketType
  extensions : Option Extensions
  deriving DecidableEq, Repr

/-- Constructor `Probe::new` (`probe.rs`). -/
def Probe.new (sequence : Sequence) (identifier : TraceId) (src_port : Port)
    (dest_port : Port) (ttl : TimeToLive) (round : RoundId) (sent : Nat)
    (flags : Flags) : Probe :=
  { sequence, identifier, src_port, dest_port, ttl, round, sent, flags }

/-- Operation `Probe::complete` (`probe.rs`): consumes the probe and the
response data and produces the completed form.  Every field of the probe is
copied except `flags`, which `ProbeComplete` does not carry. -/
def Probe.complete (self : Probe) (host : IpAddr) (received : Nat)
    (icmp_packet_type : IcmpPacketType) (extensions : Option Extensions) :
    ProbeComplete :=
  { sequence := self.sequence
    identifier := self.identifier
    src_port := self.src_port
    dest_port := self.dest_port
    ttl := self.ttl
    round := self.round
    sent := self.sent
    host := host
    received := received
    icmp_packet_type := icmp_packet_type
    extensions := extensions }

/-- The probe lifecycle state (`probe.rs`, enum `ProbeStatus`). -/
inductive ProbeStatus where
  | notSent
  | skipped
  | awaited (probe : Probe)
  | complete (probe : ProbeComplete)
  deriving DecidableEq, Repr

/-- The `#[default]` variant of `ProbeStatus` is `NotSent` (`probe.rs`). -/
def probeStatusDefault : ProbeStatus := ProbeStatus.notSent

/-- Modelled from the spec: the legal lifecycle transitions of a probe
status.  The scheduler code that drives the transitions is not among the
excerpted sources; the spec fixes the lattice
`NotSent → {Skipped | Awaited → Complete}`, with `Complete` built only by
`Probe::complete` from the awaited probe. -/
inductive ProbeStatusStep : ProbeStatus → ProbeStatus → Prop where
  | skip : ProbeStatusStep .notSent .skipped
  | send (p : Probe) : ProbeStatusStep .notSent (.awaited p)
  | finish (p : Probe) (host : IpAddr) (received : Nat)
      (icmp_packet_type : IcmpPacketType) (extensions : Option Extensions) :
      ProbeStatusStep (.awaited p)
        (.complete (p.complete host received icmp_packet_type extensions))

/-! ## The ICMP channel (`src/icmp/net.rs`) -/

/-- The maximum size of the IP packet we allow (`net.rs`). -/
def MAX_PACKET_SIZE : Nat := 1024

/-- Value of `pnet`'s `Ipv4Packet::minimum_packet_size()`. -/
def Ipv4Packet.minimumPacketSize : Nat := 20

/-- Value of `pnet`'s `EchoRequestPacket::minimum_packet_size()`. -/
def EchoRequestPacket.minimumPacketSize : Nat := 8

/-- The maximum size of ICMP packet we allow (`net.rs`). -/
def MAX_ICMP_BUF : Nat := MAX_PACKET_SIZE - Ipv4Packet.minimumPacketSize

/-- The maximum ICMP payload size we allow (`net.rs`). -/
def MAX_PAYLOAD_BUF : Nat := MAX_ICMP_BUF - EchoRequestPacket.minimumPacketSize

/-- Modelled from the spec: the error type of `crate::icmp::error`
(`TracerError`), whose module is not among the excerpted sources.  The spec
lists `InvalidPacketSize(usize)` for oversized sends and `PacketParseError`
for truncated or malformed packets (the `Required::req` adapter turns a
failed `pnet` packet construction into the latter). -/
inductive TracerError where
  | invalidPacketSize (size : Nat)
  | packetParseError
  deriving DecidableEq, Repr

/-- Modelled from the spec: the `crate::icmp::Probe` consumed by the channel
(its defining module is not among the excerpted sources).  `send` reads only
its 16-bit sequence (`probe.sequence()`) and 8-bit TTL (`probe.ttl.0`). -/
structure IcmpProbe where
  sequence : Nat
  ttl : Nat
  deriving DecidableEq, Repr

/-- The big-endian 16-bit word of a byte buffer at word index `i`. -/
def beWord (d : List Nat) (i : Nat) : Nat :=
  d.getD (2 * i) 0 * 256 + d.getD (2 * i + 1) 0

/-- Embedding of `pnet::util::sum_be_words`: sum the big-endian 16-bit words
of the buffer, skipping the word at index `skipword` (clamped to the word
count), and add a final odd byte shifted into the high half. -/
def sumBeWords (d : List Nat) (skipword : Nat) : Nat :=
  let wordCount := d.length / 2
  let sk := min skipword wordCount
  ((List.range wordCount).map (fun i => if i = sk then 0 else beWord d i)).sum
    + (if d.length % 2 = 1 then d.getD (d.length - 1) 0 * 256 else 0)

/-- One's-complement carry folding of `pnet::util::finalize_checksum`: while
the sum exceeds 16 bits, add the high half into the low half.  The loop
shrinks the sum by at least `65535` each iteration, so `fuel` iterations with
`fuel` initialised to the sum itself always suffice. -/
def foldCarryAux : Nat → Nat → Nat
  | 0, s => s
  | fuel + 1, s => if s < 65536 then s else foldCarryAux fuel (s / 65536 + s % 65536)

/-- Carry folding applied with sufficient fuel. -/
def foldCarry (s : Nat) : Nat := foldCarryAux s s

/-- Embedding of `pnet::util::checksum`: the RFC 1071 one's-complement
checksum of the buffer with the 16-bit word at `skipword` excluded. -/
def pnetChecksum (d : List Nat) (skipword : Nat) : Nat :=
  65535 - foldCarry (sumBeWords d skipword)

/-- Write a 16-bit value big-endian at byte offset `i` (the behaviour of the
`pnet` `set_identifier` / `set_sequence_number` / `set_checksum` setters,
which truncate their argument to 16 bits on the wire). -/
def setBe16 (buf : List Nat) (i v : Nat) : List Nat :=
  (buf.set i (v / 256 % 256)).set (i + 1) (v % 256)

/-- The `pnet` `MutableEchoRequestPacket::set_payload`: copy the payload
bytes into the buffer starting at byte offset 8 (after type, code, checksum,
identifier and sequence). -/
def setPayload (buf : List Nat) (payload : List Nat) : List Nat :=
  buf.take EchoRequestPacket.minimumPacketSize ++ payload
    ++ buf.drop (EchoRequestPacket.minimumPacketSize + payload.length)

/-- A side effect performed on the raw transport socket, in program order. -/
inductive SocketAction where
  | setTtl (ttl : Nat)
  | sendTo (target : IpAddr) (message : List Nat)
  deriving DecidableEq, Repr

/-- Outcome of `IcmpChannel::send`: a Rust panic, an error return, or the
ordered socket actions of the successful path.  The error branches return
before any socket action, so `err` carries none. -/
inductive SendOutcome where
  | panicked
  | err (e : TracerError)
  | ok (actions : List SocketAction)
  deriving DecidableEq, Repr

/-- Embedding of `IcmpChannel::send` (`net.rs`).  Mirrors the source line by
line: reject `packet_size > MAX_PACKET_SIZE`; compute
`icmp_buf_size = packet_size - 20` and
`payload_size = packet_size - 8 - 20` (both unsigned subtractions panic for
`packet_size < 28`); fill the payload buffer with `payload_value`; build the
echo request over the first `icmp_buf_size` bytes of a zeroed buffer by
setting type `8`, code `0`, identifier, payload, sequence and finally the
checksum over the assembled message with word 1 skipped; then set the socket
TTL from the probe and send to the target. -/
def IcmpChannel.send (probe : IcmpProbe) (ip : IpAddr) (id : Nat)
    (packetSize : Nat) (payloadValue : Nat) : SendOutcome :=
  if MAX_PACKET_SIZE < packetSize then
    .err (.invalidPacketSize packetSize)
  else if packetSize < Ipv4Packet.minimumPacketSize + EchoRequestPacket.minimumPacketSize then
    .panicked
  else
    let icmpBufSize := packetSize - Ipv4Packet.minimumPacketSize
    let payloadSize :=
      packetSize - EchoRequestPacket.minimumPacketSize - Ipv4Packet.minimumPacketSize
    let payloadBuf := List.replicate MAX_PAYLOAD_BUF (payloadValue % 256)
    if icmpBufSize < EchoRequestPacket.minimumPacketSize then
      .err .packetParseError
    else
      let buf0 := List.replicate icmpBufSize 0
      let buf1 := buf0.set 0 8
      let buf2 := buf1.set 1 0
      let buf3 := setBe16 buf2 4 id
      let buf4 := setPayload buf3 (payloadBuf.take payloadSize)
      let buf5 := setBe16 buf4 6 probe.sequence
      let buf6 := setBe16 buf5 2 (pnetChecksum buf5 1)
      .ok [SocketAction.setTtl probe.ttl, SocketAction.sendTo ip buf6]

/-- Outcome of `extract_echo_request`: a panic, a parse error surfaced via
`req()?`, or the nested echo request bytes. -/
inductive ExtractOutcome where
  | panicked
  | err
  | ok (nested : List Nat)
  deriving DecidableEq, Repr

/-- Embedding of `extract_echo_request` (`net.rs`): view the payload as an
IPv4 packet (`Ipv4Packet::new` requires at least 20 bytes), compute the
header length as `IHL * 4` from the low nibble of byte 0, take the slice
`payload[header_len..]` (a Rust panic when `header_len` exceeds the payload
length) and view it as an echo request (`EchoRequestPacket::new` requires at
least 8 bytes). -/
def extract_echo_request (payload : List Nat) : ExtractOutcome :=
  if payload.length < Ipv4Packet.minimumPacketSize then
    .err
  else
    let headerLen := payload.getD 0 0 % 16 * 4
    if payload.length < headerLen then
      .panicked
    else
      let nestedIcmp := payload.drop headerLen
      if nestedIcmp.length < EchoRequestPacket.minimumPacketSize then
        .err
      else
        .ok nestedIcmp

/-- The data in an `IcmpResponse` (`net.rs`, struct `IcmpResponseData`). -/
structure IcmpResponseData where
  recv : Nat
  addr : IpAddr
  identifier : Nat
  sequence : Nat
  deriving DecidableEq, Repr

/-- The response to an ICMP `EchoRequest` (`net.rs`, enum `IcmpResponse`). -/
inductive IcmpResponse where
  | timeExceeded (data : IcmpResponseData)
  | destinationUnreachable (data : IcmpResponseData)
  | echoReply (data : IcmpResponseData)
  deriving DecidableEq, Repr

/-- The result of the bounded-wait socket read
(`icmp_packet_iter(..).next_with_timeout(timeout)`): a timeout, or the raw
ICMP bytes together with the source address. -/
inductive ReadResult where
  | timeout
  | packet (bytes : List Nat) (ip : IpAddr)
  deriving DecidableEq, Repr

/-- Outcome of `IcmpChannel::receive`: a Rust panic, an error return, or the
`Option<IcmpResponse>` of the successful path. -/
inductive ReceiveOutcome where
  | panicked
  | err (e : TracerError)
  | ok (response : Option IcmpResponse)
  deriving DecidableEq, Repr

/-- Branch of `receive` shared by `TimeExceeded` and
`DestinationUnreachable` (`net.rs`): re-view the ICMP bytes as the specific
packet type (minimum 8 bytes, payload at offset 8), extract the nested echo
request from the payload and read its identifier (bytes 4-5) and sequence
(bytes 6-7). -/
def icmpErrorBranch (bytes : List Nat) (ip : IpAddr) (recv : Nat)
    (mk : IcmpResponseData → IcmpResponse) : ReceiveOutcome :=
  if bytes.length < 8 then
    .err .packetParseError
  else
    match extract_echo_request (bytes.drop 8) with
    | .panicked => .panicked
    | .err => .err .packetParseError
    | .ok nested =>
        .ok (some (mk ⟨recv, ip, beWord nested 2, beWord nested 3⟩))

/-- Embedding of `IcmpChannel::receive` (`net.rs`).  The socket read is
abstracted to a `ReadResult` and the `SystemTime::now()` sample to the
instant `recv`.  A timed-out read yields `Ok(None)`; otherwise dispatch on
the ICMP type byte: `TimeExceeded` (11) and `DestinationUnreachable` (3)
extract the nested echo request, `EchoReply` (0) reads identifier and
sequence directly from the outer packet, and every other type yields
`Ok(None)`. -/
def IcmpChannel.receive (read : ReadResult) (recv : Nat) : ReceiveOutcome :=
  match read with
  | .timeout => .ok none
  | .packet bytes ip =>
    if bytes.getD 0 0 = 11 then
      icmpErrorBranch bytes ip recv IcmpResponse.timeExceeded
    else if bytes.getD 0 0 = 3 then
      icmpErrorBranch bytes ip recv IcmpResponse.destinationUnreachable
    else if bytes.getD 0 0 = 0 then
      if bytes.length < 8 then
        .err .packetParseError
      else
        .ok (some (.echoReply ⟨recv, ip, beWord bytes 2, beWord bytes 3⟩))
    else
      .ok none

/-! ## Helper definitions for the theorems -/

/-- The echo request message as assembled by `send` before the checksum is
written: type, code, zero checksum, identifier, sequence, then `k` payload
bytes. -/
def echoMessageBody (id seq pv k : Nat) : List Nat :=
  [8, 0, 0, 0, id / 256 % 256, id % 256, seq / 256 % 256, seq % 256]
    ++ List.replicate k (pv % 256)

/-- The final echo request message: the body with the checksum written into
bytes 2 and 3. -/
def echoMessage (id seq pv k : Nat) : List Nat :=
  setBe16 (echoMessageBody id seq pv k) 2 (pnetChecksum (echoMessageBody id seq pv k) 1)

/-- Concrete `TimeExceeded` packet: ICMP error header, embedded IPv4 header
with IHL 5 (first byte `0x45`), nested echo request with identifier
`0x1234` and sequence 1. -/
def timeExceededSample : List Nat :=
  [11, 0, 0, 0, 0, 0, 0, 0] ++ ([69] ++ List.replicate 19 0)
    ++ [8, 0, 0, 0, 18, 52, 0, 1]

/-! ## Theorems -/

theorem getD_set_ne (l : List Nat) (i j a : Nat) (h : i ≠ j) :
    (l.set i a).getD j 0 = l.getD j 0 := by
  simp [List.getD_eq_getElem?_getD, List.getElem?_set_ne h]

theorem sumBeWords_setBe16_word1 (d : List Nat) (v : Nat) (h : 5 ≤ d.length) :
    sumBeWords (setBe16 d 2 v) 1 = sumBeWords d 1 := by
  have hlen : (setBe16 d 2 v).length = d.length := by
    simp [setBe16, List.length_set]
  have hget : ∀ j, j ≠ 2 → j ≠ 3 → (setBe16 d 2 v).getD j 0 = d.getD j 0 := by
    intro j h2 h3
    unfold setBe16
    rw [getD_set_ne _ _ _ _ (by omega), getD_set_ne _ _ _ _ (by omega)]
  have hhalf : 2 ≤ d.length / 2 := by omega
  have hsk : min 1 (d.length / 2) = 1 := by omega
  have hmap : (List.range (d.length / 2)).map
        (fun i => if i = min 1 (d.length / 2) then 0 else beWord (setBe16 d 2 v) i)
      = (List.range (d.length / 2)).map
        (fun i => if i = min 1 (d.length / 2) then 0 else beWord d i) := by
    apply List.map_congr_left
    intro i hi
    rw [hsk]
    by_cases h1 : i = 1
    · simp [h1]
    · simp only [if_neg h1]
      unfold beWord
      rw [hget (2 * i) (by omega) (by omega), hget (2 * i + 1) (by omega) (by omega)]
  have htail : (if d.length % 2 = 1 then (setBe16 d 2 v).getD (d.length - 1) 0 * 256 else 0)
      = (if d.length % 2 = 1 then d.getD (d.length - 1) 0 * 256 else 0) := by
    by_cases hodd : d.length % 2 = 1
    · simp only [if_pos hodd]
      rw [hget (d.length - 1) (by omega) (by omega)]
    · simp [hodd]
  simp only [sumBeWords, hlen, hmap, htail]

theorem header_sets (id k : Nat) :
    setBe16 (((List.replicate (k + 8) (0 : Nat)).set 0 8).set 1 0) 4 id
      = [8, 0, 0, 0, id / 256 % 256, id % 256, 0, 0] ++ List.replicate k 0 := by
  rw [Nat.add_comm k 8, List.replicate_add]
  rfl

theorem setPayload_append (hdr8 T payload : List Nat) (hh : hdr8.length = 8)
    (hT : T.length = payload.length) :
    setPayload (hdr8 ++ T) payload = hdr8 ++ payload := by
  unfold setPayload EchoRequestPacket.minimumPacketSize
  have hfull : 8 + payload.length = (hdr8 ++ T).length := by
    rw [List.length_append, hh, hT]
  rw [hfull, List.drop_length, List.append_nil, ← hh, List.take_left]

theorem send_ok_shape (probe : IcmpProbe) (ip : IpAddr) (id pv ps : Nat)
    (hlo : 28 ≤ ps) (hhi : ps ≤ 1024) :
    IcmpChannel.send probe ip id ps pv =
      SendOutcome.ok [SocketAction.setTtl probe.ttl,
        SocketAction.sendTo ip (echoMessage id probe.sequence pv (ps - 28))] := by
  obtain ⟨k, rfl⟩ : ∃ k, ps = k + 28 := ⟨ps - 28, by omega⟩
  have hk : k ≤ 996 := by omega
  simp only [IcmpChannel.send, MAX_PACKET_SIZE, MAX_PAYLOAD_BUF, MAX_ICMP_BUF,
    Ipv4Packet.minimumPacketSize, EchoRequestPacket.minimumPacketSize]
  rw [if_neg (by omega), if_neg (by omega), if_neg (by omega)]
  rw [show k + 28 - 20 = k + 8 from by omega, show k + 28 - 8 - 20 = k from by omega]
  rw [List.take_replicate, show min k 996 = k from by omega]
  rw [header_sets]
  rw [setPayload_append _ _ _ (by rfl) (by simp)]
  rfl

theorem echoMessage_eq (id seq pv k : Nat) :
    echoMessage id seq pv k =
      [8, 0, pnetChecksum (echoMessageBody id seq pv k) 1 / 256 % 256,
       pnetChecksum (echoMessageBody id seq pv k) 1 % 256,
       id / 256 % 256, id % 256, seq / 256 % 256, seq % 256]
        ++ List.replicate k (pv % 256) := rfl

/-- C1: for 28 ≤ packet_size ≤ 1024, `IcmpChannel::send` sets the socket TTL
from the probe and then sends to the target an ICMP message of
`packet_size - 20` bytes whose type is EchoRequest (8), code 0, identifier
`id`, sequence `probe.sequence`, whose payload is `packet_size - 28` bytes
all equal to `payload_value`, and whose checksum field equals the RFC 1071
one's-complement checksum of the final message. -/
theorem send_encodes_echo_request (probe : IcmpProbe) (ip : IpAddr)
    (id ps pv : Nat) (hlo : 28 ≤ ps) (hhi : ps ≤ 1024) (hid : id < 65536)
    (hseq : probe.sequence < 65536) (hpv : pv < 256) :
    ∃ msg : List Nat,
      IcmpChannel.send probe ip id ps pv =
        SendOutcome.ok [SocketAction.setTtl probe.ttl, SocketAction.sendTo ip msg]
      ∧ msg.length = ps - 20
      ∧ msg.getD 0 0 = 8
      ∧ msg.getD 1 0 = 0
      ∧ beWord msg 2 = id
      ∧ beWord msg 3 = probe.sequence
      ∧ msg.drop 8 = List.replicate (ps - 28) pv
      ∧ beWord msg 1 = pnetChecksum msg 1 := by
  have hck : pnetChecksum (echoMessageBody id probe.sequence pv (ps - 28)) 1 ≤ 65535 :=
    Nat.sub_le _ _
  have hstab : pnetChecksum (echoMessage id probe.sequence pv (ps - 28)) 1
      = pnetChecksum (echoMessageBody id probe.sequence pv (ps - 28)) 1 := by
    unfold echoMessage pnetChecksum
    rw [sumBeWords_setBe16_word1 _ _ (by simp [echoMessageBody])]
  refine ⟨echoMessage id probe.sequence pv (ps - 28),
    send_ok_shape probe ip id pv ps hlo hhi, ?_, ?_, ?_, ?_, ?_, ?_, ?_⟩
  · rw [echoMessage_eq]
    simp only [List.length_append, List.length_replicate, List.length_cons,
      List.length_nil]
    omega
  · rfl
  · rfl
  · show id / 256 % 256 * 256 + id % 256 = id
    omega
  · show probe.sequence / 256 % 256 * 256 + probe.sequence % 256 = probe.sequence
    omega
  · show List.replicate (ps - 28) (pv % 256) = List.replicate (ps - 28) pv
    rw [Nat.mod_eq_of_lt hpv]
  · rw [hstab]
    show pnetChecksum (echoMessageBody id probe.sequence pv (ps - 28)) 1 / 256 % 256 * 256
        + pnetChecksum (echoMessageBody id probe.sequence pv (ps - 28)) 1 % 256
      = pnetChecksum (echoMessageBody id probe.sequence pv (ps - 28)) 1
    omega

theorem send_encodes_echo_request_witness :
    (28 ≤ 32 ∧ 32 ≤ 1024 ∧ (4660 : Nat) < 65536 ∧ (1 : Nat) < 65536 ∧ (171 : Nat) < 256)
    ∧ ∃ msg : List Nat,
      IcmpChannel.send ⟨1, 64⟩ (.v4 5) 4660 32 171 =
        SendOutcome.ok [SocketAction.setTtl 64, SocketAction.sendTo (.v4 5) msg]
      ∧ msg.length = 32 - 20
      ∧ msg.getD 0 0 = 8
      ∧ msg.getD 1 0 = 0
      ∧ beWord msg 2 = 4660
      ∧ beWord msg 3 = 1
      ∧ msg.drop 8 = List.replicate (32 - 28) 171
      ∧ beWord msg 1 = pnetChecksum msg 1 :=
  ⟨⟨by decide, by decide, by decide, by decide, by decide⟩,
    send_encodes_echo_request ⟨1, 64⟩ (.v4 5) 4660 32 171
      (by decide) (by decide) (by decide) (by decide) (by decide)⟩

/-- C2: `send` with `packet_size == 1024` succeeds (so it does not return
`InvalidPacketSize`), and for every `packet_size > 1024` it returns
`Err(InvalidPacketSize(packet_size))`; the error branch returns before any
socket action, so nothing hits the wire. -/
theorem send_packet_size_bound (probe : IcmpProbe) (ip : IpAddr)
    (id pv ps : Nat) (h : 1024 < ps) :
    IcmpChannel.send probe ip id ps pv = SendOutcome.err (.invalidPacketSize ps)
    ∧ ∃ actions, IcmpChannel.send probe ip id 1024 pv = SendOutcome.ok actions := by
  constructor
  · simp only [IcmpChannel.send, MAX_PACKET_SIZE]
    rw [if_pos h]
  · exact ⟨_, send_ok_shape probe ip id pv 1024 (by omega) (by omega)⟩

theorem send_packet_size_bound_witness :
    IcmpChannel.send ⟨1, 64⟩ (.v4 5) 4660 2000 171
      = SendOutcome.err (.invalidPacketSize 2000)
    ∧ ∃ actions, IcmpChannel.send ⟨1, 64⟩ (.v4 5) 4660 1024 171
      = SendOutcome.ok actions :=
  send_packet_size_bound ⟨1, 64⟩ (.v4 5) 4660 171 2000 (by decide)

/-- C9: `send` with `packet_size = 28` (IPv4 minimum header 20 plus Echo
header 8) succeeds, producing a well-formed 8-byte EchoRequest with an empty
payload and performing the TTL set and the transmission. -/
theorem send_min_packet_empty_payload (probe : IcmpProbe) (ip : IpAddr)
    (id pv : Nat) :
    ∃ msg : List Nat,
      IcmpChannel.send probe ip id 28 pv =
        SendOutcome.ok [SocketAction.setTtl probe.ttl, SocketAction.sendTo ip msg]
      ∧ msg.length = 8
      ∧ msg.drop 8 = []
      ∧ msg.getD 0 0 = 8
      ∧ msg.getD 1 0 = 0
      ∧ beWord msg 2 = id % 65536
      ∧ beWord msg 3 = probe.sequence % 65536
      ∧ beWord msg 1 = pnetChecksum msg 1 := by
  have hstab : pnetChecksum (echoMessage id probe.sequence pv 0) 1
      = pnetChecksum (echoMessageBody id probe.sequence pv 0) 1 := by
    unfold echoMessage pnetChecksum
    rw [sumBeWords_setBe16_word1 _ _ (by simp [echoMessageBody])]
  have hck : pnetChecksum (echoMessageBody id probe.sequence pv 0) 1 ≤ 65535 :=
    Nat.sub_le _ _
  refine ⟨echoMessage id probe.sequence pv 0,
    send_ok_shape probe ip id pv 28 (by omega) (by omega), rfl, rfl, rfl, rfl,
    ?_, ?_, ?_⟩
  · show id / 256 % 256 * 256 + id % 256 = id % 65536
    omega
  · show probe.sequence / 256 % 256 * 256 + probe.sequence % 256
      = probe.sequence % 65536
    omega
  · rw [hstab]
    show pnetChecksum (echoMessageBody id probe.sequence pv 0) 1 / 256 % 256 * 256
        + pnetChecksum (echoMessageBody id probe.sequence pv 0) 1 % 256
      = pnetChecksum (echoMessageBody id probe.sequence pv 0) 1
    omega

/-- C10: `send` validates only the upper bound of the packet size.  Every
`packet_size < 28` makes one of the unsigned subtractions underflow, so that
path panics rather than returning an error, and the `InvalidPacketSize`
error is produced exactly for `packet_size > 1024`. -/
theorem send_underflow_not_validated (probe : IcmpProbe) (ip : IpAddr)
    (id pv : Nat) :
    (∀ ps, ps < 28 → IcmpChannel.send probe ip id ps pv = SendOutcome.panicked)
    ∧ (∀ ps e, IcmpChannel.send probe ip id ps pv
          = SendOutcome.err (.invalidPacketSize e) → 1024 < ps ∧ e = ps) := by
  constructor
  · intro ps hps
    simp only [IcmpChannel.send, MAX_PACKET_SIZE, Ipv4Packet.minimumPacketSize,
      EchoRequestPacket.minimumPacketSize]
    rw [if_neg (by omega), if_pos (by omega)]
  · intro ps e hsend
    by_cases h1 : 1024 < ps
    · refine ⟨h1, ?_⟩
      simp only [IcmpChannel.send, MAX_PACKET_SIZE] at hsend
      rw [if_pos h1] at hsend
      simp only [SendOutcome.err.injEq, TracerError.invalidPacketSize.injEq] at hsend
      omega
    · exfalso
      by_cases h2 : ps < 28
      · simp only [IcmpChannel.send, MAX_PACKET_SIZE, Ipv4Packet.minimumPacketSize,
          EchoRequestPacket.minimumPacketSize] at hsend
        rw [if_neg (by omega), if_pos (by omega)] at hsend
        exact SendOutcome.noConfusion hsend
      · rw [send_ok_shape probe ip id pv ps (by omega) (by omega)] at hsend
        exact SendOutcome.noConfusion hsend

theorem send_underflow_not_validated_witness :
    IcmpChannel.send ⟨1, 64⟩ (.v4 5) 4660 27 171 = SendOutcome.panicked
    ∧ (1024 < 2000 ∧ 2000 = 2000) :=
  ⟨(send_underflow_not_validated ⟨1, 64⟩ (.v4 5) 4660 171).1 27 (by decide),
   (send_underflow_not_validated ⟨1, 64⟩ (.v4 5) 4660 171).2 2000 2000 (by decide)⟩

/-- C3: evaluation at the failing input.  A 20-byte embedded packet whose
IHL nibble claims a 60-byte header (first byte `0x4F`) drives
`extract_echo_request` into the out-of-bounds slice `&payload[60..]`: the
function panics instead of returning a parse error. -/
theorem extract_echo_request_overclaim_panics :
    extract_echo_request (79 :: List.replicate 19 0) = ExtractOutcome.panicked := by
  decide

theorem extract_echo_request_ok (payload nested : List Nat)
    (h : extract_echo_request payload = ExtractOutcome.ok nested) :
    nested = payload.drop (payload.getD 0 0 % 16 * 4) := by
  simp only [extract_echo_request] at h
  split_ifs at h
  exact (ExtractOutcome.ok.inj h).symm

/-- C4: when `receive` surfaces a response for a `TimeExceeded` (11) or
`DestinationUnreachable` (3) packet, the identifier and sequence are read
from the nested echo request found by skipping the embedded IP header of
`IHL * 4` bytes recomputed from the nested header; for an `EchoReply` (0)
they are read directly from the outer ICMP packet. -/
theorem receive_nested_vs_direct (bytes : List Nat) (ip : IpAddr) (recv : Nat) :
    (∀ r, bytes.getD 0 0 = 11 ∨ bytes.getD 0 0 = 3 →
      IcmpChannel.receive (.packet bytes ip) recv = .ok (some r) →
      r = (if bytes.getD 0 0 = 11 then IcmpResponse.timeExceeded
           else IcmpResponse.destinationUnreachable)
        ⟨recv, ip,
         beWord ((bytes.drop 8).drop ((bytes.drop 8).getD 0 0 % 16 * 4)) 2,
         beWord ((bytes.drop 8).drop ((bytes.drop 8).getD 0 0 % 16 * 4)) 3⟩)
    ∧ (∀ r, bytes.getD 0 0 = 0 →
      IcmpChannel.receive (.packet bytes ip) recv = .ok (some r) →
      r = .echoReply ⟨recv, ip, beWord bytes 2, beWord bytes 3⟩) := by
  constructor
  · rintro r (h | h) hrec
    · simp only [IcmpChannel.receive, h, if_pos] at hrec
      simp only [h, if_pos]
      by_cases hlen : bytes.length < 8
      · rw [icmpErrorBranch, if_pos hlen] at hrec
        exact ReceiveOutcome.noConfusion hrec
      · rcases hex : extract_echo_request (bytes.drop 8) with _ | _ | nested <;>
          rw [icmpErrorBranch, if_neg hlen, hex] at hrec
        · exact ReceiveOutcome.noConfusion hrec
        · exact ReceiveOutcome.noConfusion hrec
        · obtain rfl := (Option.some.inj (ReceiveOutcome.ok.inj hrec)).symm
          rw [extract_echo_request_ok _ _ hex]
    · simp only [IcmpChannel.receive, h] at hrec
      simp only [h]
      rw [if_neg (by norm_num : ¬ (3 : Nat) = 11)]
      norm_num at hrec
      by_cases hlen : bytes.length < 8
      · rw [icmpErrorBranch, if_pos hlen] at hrec
        exact ReceiveOutcome.noConfusion hrec
      · rcases hex : extract_echo_request (bytes.drop 8) with _ | _ | nested <;>
          rw [icmpErrorBranch, if_neg hlen, hex] at hrec
        · exact ReceiveOutcome.noConfusion hrec
        · exact ReceiveOutcome.noConfusion hrec
        · obtain rfl := (Option.some.inj (ReceiveOutcome.ok.inj hrec)).symm
          rw [extract_echo_request_ok _ _ hex]
  · intro r h hrec
    simp only [IcmpChannel.receive, h] at hrec
    norm_num at hrec
    by_cases hlen : bytes.length < 8
    · rw [if_pos hlen] at hrec
      exact ReceiveOutcome.noConfusion hrec
    · rw [if_neg hlen] at hrec
      obtain rfl := (Option.some.inj (ReceiveOutcome.ok.inj hrec)).symm
      rfl

theorem receive_nested_vs_direct_witness :
    IcmpResponse.timeExceeded ⟨7, .v4 1, 4660, 1⟩ =
      (if timeExceededSample.getD 0 0 = 11 then IcmpResponse.timeExceeded
       else IcmpResponse.destinationUnreachable)
        ⟨7, .v4 1,
         beWord ((timeExceededSample.drop 8).drop
           ((timeExceededSample.drop 8).getD 0 0 % 16 * 4)) 2,
         beWord ((timeExceededSample.drop 8).drop
           ((timeExceededSample.drop 8).getD 0 0 % 16 * 4)) 3⟩ :=
  (receive_nested_vs_direct timeExceededSample (.v4 1) 7).1
    (IcmpResponse.timeExceeded ⟨7, .v4 1, 4660, 1⟩) (Or.inl (by decide)) (by decide)

/-- C5: evaluation at the failing input.  A `TimeExceeded` packet whose
embedded IP header claims an IHL of 15 (60 bytes) with only a 20-byte body
makes `receive` panic, so a packet of one of the three accepted types can
produce neither `Ok(Some(..))` nor an error. -/
theorem receive_overclaim_panics :
    IcmpChannel.receive
        (.packet ([11, 0, 0, 0, 0, 0, 0, 0] ++ (79 :: List.replicate 19 0)) (.v4 1)) 0
      = ReceiveOutcome.panicked := by
  decide

/-- C6 counterexample: two probes identical except for their flags complete
to the same `ProbeComplete`, so the produced value cannot carry the probe
flags (the `ProbeComplete` struct has no `flags` field). -/
theorem complete_drops_flags :
    (Probe.new ⟨1⟩ ⟨2⟩ ⟨3⟩ ⟨4⟩ ⟨5⟩ ⟨6⟩ 7 ⟨0⟩).complete (.v4 9) 8 .notApplicable none
      = (Probe.new ⟨1⟩ ⟨2⟩ ⟨3⟩ ⟨4⟩ ⟨5⟩ ⟨6⟩ 7 ⟨1⟩).complete (.v4 9) 8 .notApplicable none
    ∧ Flags.mk 0 ≠ Flags.mk 1 :=
  ⟨rfl, by decide⟩

/-- C6 amended: `Probe::complete` carries every `Probe` field except `flags`
unchanged, sets `host`, `received`, `icmp_packet_type` and `extensions` to
its arguments exactly, and its result does not depend on the flags, which
`ProbeComplete` does not carry. -/
theorem complete_fields (s : Sequence) (i : TraceId) (sp dp : Port)
    (t : TimeToLive) (r : RoundId) (sent : Nat) (f : Flags) (host : IpAddr)
    (received : Nat) (ipt : IcmpPacketType) (ext : Option Extensions) :
    ((Probe.new s i sp dp t r sent f).complete host received ipt ext).sequence = s
    ∧ ((Probe.new s i sp dp t r sent f).complete host received ipt ext).identifier = i
    ∧ ((Probe.new s i sp dp t r sent f).complete host received ipt ext).src_port = sp
    ∧ ((Probe.new s i sp dp t r sent f).complete host received ipt ext).dest_port = dp
    ∧ ((Probe.new s i sp dp t r sent f).complete host received ipt ext).ttl = t
    ∧ ((Probe.new s i sp dp t r sent f).complete host received ipt ext).round = r
    ∧ ((Probe.new s i sp dp t r sent f).complete host received ipt ext).sent = sent
    ∧ ((Probe.new s i sp dp t r sent f).complete host received ipt ext).host = host
    ∧ ((Probe.new s i sp dp t r sent f).complete host received ipt ext).received = received
    ∧ ((Probe.new s i sp dp t r sent f).complete host received ipt ext).icmp_packet_type = ipt
    ∧ ((Probe.new s i sp dp t r sent f).complete host received ipt ext).extensions = ext
    ∧ (∀ g : Flags, (Probe.new s i sp dp t r sent g).complete host received ipt ext
        = (Probe.new s i sp dp t r sent f).complete host received ipt ext) :=
  ⟨rfl, rfl, rfl, rfl, rfl, rfl, rfl, rfl, rfl, rfl, rfl, fun _ => rfl⟩

/-- C7: the probe status state machine.  The default status is `NotSent`;
every legal transition either leaves `NotSent` (to `Skipped` or to
`Awaited`) or completes an `Awaited` probe through `Probe::complete`; no
transition leaves `Skipped` or `Complete`; and every `ProbeComplete` value
is an image of `Probe::complete`. -/
theorem probe_status_transitions :
    probeStatusDefault = ProbeStatus.notSent
    ∧ (∀ s t, ProbeStatusStep s t →
        (s = ProbeStatus.notSent
          ∧ (t = ProbeStatus.skipped ∨ ∃ p, t = ProbeStatus.awaited p))
        ∨ (∃ p host received ipt ext, s = ProbeStatus.awaited p
            ∧ t = ProbeStatus.complete (p.complete host received ipt ext)))
    ∧ (∀ t, ¬ ProbeStatusStep ProbeStatus.skipped t)
    ∧ (∀ c t, ¬ ProbeStatusStep (ProbeStatus.complete c) t)
    ∧ (∀ c : ProbeComplete, ∃ p host received ipt ext,
        Probe.complete p host received ipt ext = c) := by
  refine ⟨rfl, ?_, ?_, ?_, ?_⟩
  · intro s t hstep
    cases hstep with
    | skip => exact Or.inl ⟨rfl, Or.inl rfl⟩
    | send p => exact Or.inl ⟨rfl, Or.inr ⟨p, rfl⟩⟩
    | finish p host received ipt ext =>
        exact Or.inr ⟨p, host, received, ipt, ext, rfl, rfl⟩
  · intro t hstep
    cases hstep
  · intro c t hstep
    cases hstep
  · intro c
    exact ⟨⟨c.sequence, c.identifier, c.src_port, c.dest_port, c.ttl, c.round,
      c.sent, ⟨0⟩⟩, c.host, c.received, c.icmp_packet_type, c.extensions, rfl⟩

theorem probe_status_transitions_witness :
    (ProbeStatus.notSent = ProbeStatus.notSent
      ∧ (ProbeStatus.skipped = ProbeStatus.skipped
          ∨ ∃ p, ProbeStatus.skipped = ProbeStatus.awaited p))
    ∨ (∃ p host received ipt ext, ProbeStatus.notSent = ProbeStatus.awaited p
        ∧ ProbeStatus.skipped = ProbeStatus.complete (p.complete host received ipt ext)) :=
  probe_status_transitions.2.1 ProbeStatus.notSent ProbeStatus.skipped ProbeStatusStep.skip

/-- C8 counterexample: completing a probe whose `sent` is 1 with
`received = 0` produces a `ProbeComplete` violating `received ≥ sent`; the
constructors do not enforce the invariant. -/
theorem complete_received_lt_sent :
    ¬ ((Probe.new ⟨1⟩ ⟨2⟩ ⟨3⟩ ⟨4⟩ ⟨5⟩ ⟨6⟩ 1 ⟨0⟩).complete (.v4 9) 0
        .notApplicable none).received
      ≥ ((Probe.new ⟨1⟩ ⟨2⟩ ⟨3⟩ ⟨4⟩ ⟨5⟩ ⟨6⟩ 1 ⟨0⟩).complete (.v4 9) 0
        .notApplicable none).sent := by
  decide

/-- C8 amended: `Probe::new` and `Probe::complete` copy the timestamps
unchanged, so the completed probe satisfies `received ≥ sent` exactly when
the supplied `received` argument is at least the supplied `sent`. -/
theorem complete_received_ge_sent_iff (s : Sequence) (i : TraceId) (sp dp : Port)
    (t : TimeToLive) (r : RoundId) (sent : Nat) (f : Flags) (host : IpAddr)
    (received : Nat) (ipt : IcmpPacketType) (ext : Option Extensions) :
    ((Probe.new s i sp dp t r sent f).complete host received ipt ext).received
      ≥ ((Probe.new s i sp dp t r sent f).complete host received ipt ext).sent
    ↔ received ≥ sent :=
  Iff.rfl
